import Mathlib

/-!
A formal model of the data pipeline of the world economic dashboard:
the source fetcher (`fetch_country_data`), the country directory fetcher
(`fetch_all_countries`), the chart binder (`create_chart`), the CSV pair
(`parse_uploaded_csv` / `export_to_csv`), and the clear-all state
transition (`clear_all_data`).  Machine floats are
modelled as rationals; the external HTTP layer is modelled as an oracle
giving, per request, either a failure or a decoded payload.
-/

/-- One decoded observation entry from the time-series source: the payload
field `country.value`, the (integer-parsed) `date`, and the `value`, which
is absent exactly when the source reports `null`. -/
structure WBEntry where
  countryName : String
  date : Int
  value : Option Rat
deriving DecidableEq, Repr

/-- One row of the tidy dataset built by `fetch_country_data`. -/
structure IndicatorRecord where
  country_code : String
  country_name : String
  indicator : String
  year : Int
  value : Rat
deriving DecidableEq, Repr

/-- Oracle for the time-series endpoint: one request per
(country code, indicator code, start year, end year). `Except.error`
models any raised exception during the request (network error, non-2xx
status, malformed payload); `Except.ok` carries the decoded entry list
`data[1]` (empty when the response has no data array). -/
abbrev Api : Type := String → String → Int → Int → Except Unit (List WBEntry)

/-- The indicator catalog `ECONOMIC_INDICATORS` from `config.py`:
human-readable label mapped to the provider indicator code. -/
def ECONOMIC_INDICATORS : List (String × String) := [
  ("GDP (Current US$)", "NY.GDP.MKTP.CD"),
  ("GDP Growth (Annual %)", "NY.GDP.MKTP.KD.ZG"),
  ("GDP Per Capita", "NY.GDP.PCAP.CD"),
  ("GDP Per Capita Growth", "NY.GDP.PCAP.KD.ZG"),
  ("GNI Per Capita", "NY.GNP.PCAP.CD"),
  ("GNI Atlas Method", "NY.GNP.PCAP.CD"),
  ("GDP Deflator", "NY.GDP.DEFL.ZS"),
  ("Gross Capital Formation", "NE.GDI.TOTL.ZS"),
  ("Final Consumption Expenditure", "NE.CON.TOTL.ZS"),
  ("Inflation Rate (Consumer Prices)", "FP.CPI.TOTL.ZG"),
  ("Food Inflation", "FP.CPI.FOOD.ZG"),
  ("Core Inflation", "FP.CPI.TOTL.ZG"),
  ("Money Supply Growth", "FM.LBL.BMNY.ZG"),
  ("Interest Rate", "FR.INR.RINR"),
  ("Real Interest Rate", "FR.INR.RINR"),
  ("Exchange Rate", "PA.NUS.FCRF"),
  ("Official Exchange Rate", "PA.NUS.FCRF"),
  ("Unemployment Rate", "SL.UEM.TOTL.ZS"),
  ("Youth Unemployment", "SL.UEM.1524.ZS"),
  ("Female Unemployment", "SL.UEM.TOTL.FE.ZS"),
  ("Male Unemployment", "SL.UEM.TOTL.MA.ZS"),
  ("Labor Force Participation", "SL.TLF.CACT.ZS"),
  ("Employment in Services (%)", "SL.SRV.EMPL.ZS"),
  ("Employment in Industry (%)", "SL.IND.EMPL.ZS"),
  ("Employment in Agriculture (%)", "SL.AGR.EMPL.ZS"),
  ("Labor Productivity", "SL.GDP.PCAP.EM.KD"),
  ("Population", "SP.POP.TOTL"),
  ("Population Growth", "SP.POP.GROW"),
  ("Urban Population (%)", "SP.URB.TOTL.IN.ZS"),
  ("Rural Population (%)", "SP.RUR.TOTL.ZS"),
  ("Population Density", "EN.POP.DNST"),
  ("Life Expectancy", "SP.DYN.LE00.IN"),
  ("Female Life Expectancy", "SP.DYN.LE00.FE.IN"),
  ("Male Life Expectancy", "SP.DYN.LE00.MA.IN"),
  ("Fertility Rate", "SP.DYN.TFRT.IN"),
  ("Birth Rate", "SP.DYN.CBRT.IN"),
  ("Death Rate", "SP.DYN.CDRT.IN"),
  ("Infant Mortality Rate", "SP.DYN.IMRT.IN"),
  ("Child Mortality Rate (Under 5)", "SH.DYN.MORT"),
  ("Age Dependency Ratio", "SP.POP.DPND"),
  ("Exports of Goods and Services", "NE.EXP.GNFS.CD"),
  ("Imports of Goods and Services", "NE.IMP.GNFS.CD"),
  ("Trade Balance", "NE.RSB.GNFS.CD"),
  ("Trade (% of GDP)", "NE.TRD.GNFS.ZS"),
  ("Current Account Balance", "BN.CAB.XOKA.CD"),
  ("Current Account Balance (% GDP)", "BN.CAB.XOKA.GD.ZS"),
  ("Merchandise Trade (% GDP)", "TG.VAL.TOTL.GD.ZS"),
  ("Services Trade (% GDP)", "BG.GSR.NFSV.GD.ZS"),
  ("Export Value Index", "TX.QTY.MRCH.XD.WD"),
  ("Import Value Index", "TM.QTY.MRCH.XD.WD"),
  ("Terms of Trade", "TT.PRI.MRCH.XD.WD"),
  ("Foreign Direct Investment", "BX.KLT.DINV.CD.WD"),
  ("FDI Inflows (% GDP)", "BX.KLT.DINV.WD.GD.ZS"),
  ("FDI Outflows", "BM.KLT.DINV.CD.WD"),
  ("Portfolio Investment", "BX.PEF.TOTL.CD.WD"),
  ("External Debt", "DT.DOD.DECT.CD"),
  ("Total Reserves", "FI.RES.TOTL.CD"),
  ("Reserves (Months of Imports)", "FI.RES.TOTL.MO"),
  ("Government Debt (% of GDP)", "GC.DOD.TOTL.GD.ZS"),
  ("Government Expenditure (% of GDP)", "GC.XPN.TOTL.GD.ZS"),
  ("Government Revenue (% GDP)", "GC.REV.TOTL.GD.ZS"),
  ("Tax Revenue (% of GDP)", "GC.TAX.TOTL.GD.ZS"),
  ("Budget Balance (% GDP)", "GC.BAL.TOTL.GD.ZS"),
  ("Military Expenditure (% of GDP)", "MS.MIL.XPND.GD.ZS"),
  ("Public Debt Service", "GC.DOD.TOTL.GD.ZS"),
  ("Internet Users (%)", "IT.NET.USER.ZS"),
  ("Mobile Subscriptions", "IT.CEL.SETS.P2"),
  ("Fixed Broadband Subscriptions", "IT.NET.BBND.P2"),
  ("Telephone Lines", "IT.MLT.MAIN.P2"),
  ("Electric Power Consumption", "EG.USE.ELEC.KH.PC"),
  ("Electricity Production", "EG.ELC.PROD.KH"),
  ("Energy Use Per Capita", "EG.USE.PCAP.KG.OE"),
  ("Railway Lines (km)", "IS.RRS.TOTL.KM"),
  ("Road Density", "IS.ROD.DNST.K2"),
  ("Air Transport Passengers", "IS.AIR.PSGR"),
  ("Container Port Traffic", "IS.SHP.GOOD.TU"),
  ("CO2 Emissions (kt)", "EN.ATM.CO2E.KT"),
  ("CO2 Emissions Per Capita", "EN.ATM.CO2E.PC"),
  ("Methane Emissions", "EN.ATM.METH.KT.CE"),
  ("Nitrous Oxide Emissions", "EN.ATM.NOXE.KT.CE"),
  ("Renewable Energy (%)", "EG.FEC.RNEW.ZS"),
  ("Fossil Fuel Consumption", "EG.USE.COMM.FO.ZS"),
  ("Forest Area (%)", "AG.LND.FRST.ZS"),
  ("Agricultural Land (%)", "AG.LND.AGRI.ZS"),
  ("Arable Land (%)", "AG.LND.ARBL.ZS"),
  ("Water Resources", "ER.H2O.INTR.PC"),
  ("PM2.5 Air Pollution", "EN.ATM.PM25.MC.M3"),
  ("Education Expenditure (% of GDP)", "SE.XPD.TOTL.GD.ZS"),
  ("Primary Education Completion", "SE.PRM.CMPT.ZS"),
  ("Secondary Education Enrollment", "SE.SEC.NENR"),
  ("Tertiary Education Enrollment", "SE.TER.ENRR"),
  ("Adult Literacy Rate", "SE.ADT.LITR.ZS"),
  ("Youth Literacy Rate", "SE.ADT.1524.LT.ZS"),
  ("Female Literacy Rate", "SE.ADT.LITR.FE.ZS"),
  ("School Life Expectancy", "SE.SCH.LIFE"),
  ("Primary School Enrollment", "SE.PRM.NENR"),
  ("Pupil-Teacher Ratio", "SE.PRM.ENRL.TC.ZS"),
  ("Health Expenditure (% of GDP)", "SH.XPD.CHEX.GD.ZS"),
  ("Health Expenditure Per Capita", "SH.XPD.CHEX.PC.CD"),
  ("Hospital Beds (per 1000)", "SH.MED.BEDS.ZS"),
  ("Physicians (per 1000)", "SH.MED.PHYS.ZS"),
  ("Nurses and Midwives (per 1000)", "SH.MED.NUMW.P3"),
  ("Immunization Rate (DPT)", "SH.IMM.IDPT"),
  ("Immunization Rate (Measles)", "SH.IMM.MEAS"),
  ("Maternal Mortality Rate", "SH.STA.MMRT"),
  ("Malnutrition Prevalence", "SH.STA.MALN.ZS"),
  ("HIV Prevalence", "SH.DYN.AIDS.ZS"),
  ("Tuberculosis Incidence", "SH.TBS.INCD"),
  ("Food Production Index", "AG.PRD.FOOD.XD"),
  ("Crop Production Index", "AG.PRD.CROP.XD"),
  ("Livestock Production Index", "AG.PRD.LVSK.XD"),
  ("Fertilizer Consumption", "AG.CON.FERT.ZS"),
  ("Cereal Yield", "AG.YLD.CREL.KG"),
  ("Agricultural Value Added", "NV.AGR.TOTL.ZS"),
  ("Rural Population", "SP.RUR.TOTL.ZS"),
  ("Permanent Cropland", "AG.LND.CROP.ZS"),
  ("R&D Expenditure (% of GDP)", "GB.XPD.RSDV.GD.ZS"),
  ("Researchers (per million)", "SP.POP.SCIE.RD.P6"),
  ("Patent Applications", "IP.PAT.RESD"),
  ("Trademark Applications", "IP.TMK.RESD"),
  ("High-tech Exports (%)", "TX.VAL.TECH.CD"),
  ("Scientific Publications", "IP.JRN.ARTC.SC"),
  ("Poverty Headcount ($1.90)", "SI.POV.DDAY"),
  ("Poverty Headcount ($3.20)", "SI.POV.LMIC"),
  ("Poverty Headcount ($5.50)", "SI.POV.UMIC"),
  ("GINI Index", "SI.POV.GINI"),
  ("Income Share - Bottom 10%", "SI.DST.FRST.10"),
  ("Income Share - Top 10%", "SI.DST.10TH.10"),
  ("Social Protection Coverage", "per_si_allsi.cov_pop_tot")
]

/-- In `main.py`, `ALL_INDICATORS = ECONOMIC_INDICATORS`. -/
def ALL_INDICATORS : List (String × String) := ECONOMIC_INDICATORS

/-- Python dict lookup `ALL_INDICATORS[name]` (the literal has no
duplicate keys, so association-list lookup matches dict semantics). -/
def lookupIndicator (name : String) : Option String :=
  (ALL_INDICATORS.find? (fun p => p.1 == name)).map (·.2)

/-- Lines 108-116 of `main.py`: an entry with a non-null value becomes one
row dict; a null value yields no row. -/
def recordOfEntry (country_code indicator_name : String) (e : WBEntry) :
    Option IndicatorRecord :=
  e.value.map fun v =>
    { country_code := country_code
      country_name := e.countryName
      indicator := indicator_name
      year := e.date
      value := v }

/-- The body of the inner loop of `fetch_country_data` for one
(country, indicator) pair: skip silently if the label is not in the
catalog, issue the request, drop the pair on any exception, otherwise
keep every non-null observation. -/
def fetchPair (api : Api) (country_code indicator_name : String)
    (start_year end_year : Int) : List IndicatorRecord :=
  match lookupIndicator indicator_name with
  | none => []
  | some indicator_code =>
    match api country_code indicator_code start_year end_year with
    | .error _ => []
    | .ok entries => entries.filterMap (recordOfEntry country_code indicator_name)

/-- The `all_data` accumulator of `fetch_country_data`: pairs are visited
country-major, indicator-minor, and each pair appends its rows in payload
order. -/
def rawData (api : Api) (ccs inds : List String) (y0 y1 : Int) :
    List IndicatorRecord :=
  ccs.flatMap fun c => inds.flatMap fun i => fetchPair api c i y0 y1

/-- The sort key used by `df.sort_values(['country_name', 'indicator',
'year'])`: lexicographic on (country_name, indicator, year). -/
def recKey (r : IndicatorRecord) : String × String × Int :=
  (r.country_name, r.indicator, r.year)

/-- The total preorder comparing two records by the pandas sort key.
Python compares strings lexicographically by code points, modelled by the
lexicographic order on the underlying character lists. -/
def keyLE (a b : IndicatorRecord) : Prop :=
  a.country_name.data < b.country_name.data ∨ (a.country_name = b.country_name ∧
    (a.indicator.data < b.indicator.data ∨ (a.indicator = b.indicator ∧
      a.year ≤ b.year)))

instance : DecidableRel keyLE := fun _ _ => by
  unfold keyLE
  infer_instance

/-- `df.sort_values(['country_name', 'indicator', 'year'])`: a multi-key
pandas sort is performed with a stable lexicographic sort, modelled by a
stable insertion sort under `keyLE`. -/
def sortRecords (l : List IndicatorRecord) : List IndicatorRecord :=
  l.insertionSort keyLE

/-- Lines 81-82 of `main.py`: a bare string country argument is wrapped
into a singleton list before the loop runs. -/
def resolveCountries : String ⊕ List String → List String
  | .inl s => [s]
  | .inr l => l

/-- Lines 84-85 of `main.py`: an absent indicator selection defaults to
the whole catalog key list. -/
def resolveIndicators : Option (List String) → List String
  | none => ECONOMIC_INDICATORS.map (·.1)
  | some l => l

/-- `fetch_country_data` from `main.py` (lines 79-127): resolve the
country and indicator selections, accumulate the per-pair rows, and sort
a non-empty accumulator (an empty one yields the empty dataset). -/
def fetch_country_data (api : Api) (country_codes : String ⊕ List String)
    (start_year end_year : Int) (indicators : Option (List String)) :
    List IndicatorRecord :=
  let all_data := rawData api (resolveCountries country_codes)
    (resolveIndicators indicators) start_year end_year
  if all_data.isEmpty then [] else sortRecords all_data

/-- One entry of the country directory payload (`data[1]` of the
`/v2/country` endpoint).  The truthiness tests of `main.py` line 64 are on
the string fields, so they are kept as strings here (an absent field is an
empty string, which is falsy in Python). -/
structure WBCountry where
  name : String
  id : String
  capitalCity : String
  longitude : String
  latitude : String
deriving DecidableEq, Repr

/-- The module-level cache globals `_countries_cache` and
`_cache_timestamp` of `main.py`; the timestamp is seconds since an
arbitrary epoch. -/
structure CountriesCache where
  cache : Option (List (String × String))
  timestamp : Option Int
deriving DecidableEq, Repr

/-- Python's `timedelta.seconds` attribute: a timedelta is normalised to
days plus a seconds component in `[0, 86400)`, so for an elapsed time of
`e` seconds the attribute reads `e % 86400` (floor-division remainder,
matching `Int.emod` for a positive modulus). -/
def pySeconds (e : Int) : Int := e % 86400

/-- The hardcoded fallback mapping returned by `fetch_all_countries` when
the directory request raises. -/
def fallbackCountries : List (String × String) :=
  [("United States", "USA"), ("China", "CHN"), ("Japan", "JPN"),
   ("Germany", "DEU"), ("India", "IND"), ("United Kingdom", "GBR"),
   ("France", "FRA"), ("Italy", "ITA"), ("Brazil", "BRA"),
   ("Canada", "CAN"), ("Russia", "RUS"), ("South Korea", "KOR")]

/-- Python dict insertion `countries[name] = id`: overwrite an existing
key in place, otherwise append. -/
def dictInsert (m : List (String × String)) (k v : String) :
    List (String × String) :=
  if m.any (fun p => p.1 == k) then
    m.map (fun p => if p.1 == k then (k, v) else p)
  else m ++ [(k, v)]

/-- Lines 61-67 of `main.py`: keep only countries whose capital city,
longitude and latitude are all populated (truthy), build the name-to-code
dict, then `dict(sorted(countries.items()))` sorts the pairs by name
(keys are unique, so comparing the first components suffices). -/
def buildCountries (data : List WBCountry) : List (String × String) :=
  let m := data.foldl
    (fun m c =>
      if c.capitalCity ≠ "" ∧ c.longitude ≠ "" ∧ c.latitude ≠ "" then
        dictInsert m c.name c.id
      else m) []
  m.insertionSort (fun p q => p.1.data ≤ q.1.data)

/-- `fetch_all_countries` from `main.py` (lines 47-77), with the wall
clock and the directory request passed explicitly.  The cached mapping is
returned when both globals are set and `(now - ts).seconds < 86400`;
otherwise a fresh fetch either rebuilds and re-caches the mapping or, on a
raised exception, returns the fallback list leaving the cache untouched. -/
def fetch_all_countries (now : Int) (src : Except Unit (List WBCountry))
    (st : CountriesCache) : List (String × String) × CountriesCache :=
  match st.cache, st.timestamp with
  | some c, some ts =>
    if pySeconds (now - ts) < 86400 then (c, st)
    else freshFetch now src st
  | _, _ => freshFetch now src st
where
  /-- The `try` block: rebuild the mapping and cache it, or fall back. -/
  freshFetch (now : Int) (src : Except Unit (List WBCountry))
      (st : CountriesCache) : List (String × String) × CountriesCache :=
    match src with
    | .ok data =>
      let cs := buildCountries data
      (cs, { cache := some cs, timestamp := some now })
    | .error _ => (fallbackCountries, st)

/-- The renderable chart produced by `create_chart`: either one of the
placeholder annotations, a heatmap trace (row labels, column labels and
the z matrix), or one of the other plotly figures, represented by its
chart kind and the data rows bound to it. -/
inductive ChartSpec where
  | placeholder (msg : String)
  | plain (kind : String) (data : List IndicatorRecord)
  | heatmapFig (rows : List String) (cols : List Int) (z : List (List Rat))
deriving DecidableEq, Repr

/-- Column labels of a heatmap `ChartSpec` (empty for other charts). -/
def ChartSpec.yearCols : ChartSpec → List Int
  | .heatmapFig _ cols _ => cols
  | _ => []

/-- Row labels of a heatmap `ChartSpec` (empty for other charts). -/
def ChartSpec.countryRows : ChartSpec → List String
  | .heatmapFig rows _ _ => rows
  | _ => []

/-- Sorted deduplicated country names of some rows: the pivot index. -/
def heatRows (d : List IndicatorRecord) : List String :=
  ((d.map (fun r => r.country_name)).dedup).insertionSort
    (fun a b => a.data ≤ b.data)

/-- Sorted deduplicated years of some rows: the pivot columns. -/
def heatCols (d : List IndicatorRecord) : List Int :=
  ((d.map (fun r => r.year)).dedup).insertionSort (fun a b => a ≤ b)

/-- One pivot cell: `aggfunc='mean'` over the matching rows, and
`.fillna(0)` when no row matches. -/
def heatCell (d : List IndicatorRecord) (c : String) (y : Int) : Rat :=
  let vs := (d.filter (fun r => r.country_name == c && r.year == y)).map
    (fun r => r.value)
  if vs.isEmpty then 0 else vs.sum / (vs.length : Rat)

/-- The z matrix of `pivot_table(values='value', index='country_name',
columns='year', aggfunc='mean').fillna(0)`. -/
def heatZ (d : List IndicatorRecord) : List (List Rat) :=
  (heatRows d).map (fun c => (heatCols d).map (fun y => heatCell d c y))

/-- `indicator_data['year'].max()`: the greatest year among the rows.
The bar branch only evaluates it after the emptiness checks, so the
default of the empty case is never consulted. -/
def latestYear (d : List IndicatorRecord) : Int :=
  match d.map (fun r => r.year) with
  | [] => 0
  | y :: ys => ys.foldl max y

/-- `create_chart` from `main.py` (lines 129-205): empty dataset and
empty filtered selections yield placeholder figures; the heatmap branch
pivots to a country-by-year mean grid with missing cells filled with 0;
the bar branch keeps only the latest year; the remaining branches bind
the filtered rows directly. -/
def create_chart (df : List IndicatorRecord) (indicator : String)
    (chart_type : String) (countries : Option (List String)) : ChartSpec :=
  if df.isEmpty then .placeholder "No data available"
  else
    let indicator_data := df.filter (fun r => r.indicator == indicator)
    if indicator_data.isEmpty then
      .placeholder ("No data available for " ++ indicator)
    else
      let indicator_data := match countries with
        | some cs =>
          if cs.isEmpty then indicator_data
          else indicator_data.filter (fun r => cs.contains r.country_code)
        | none => indicator_data
      if indicator_data.isEmpty then
        .placeholder ("No data available for " ++ indicator ++
          " with selected countries")
      else if chart_type == "heatmap" then
        .heatmapFig (heatRows indicator_data) (heatCols indicator_data)
          (heatZ indicator_data)
      else if chart_type == "bar" then
        .plain "bar"
          (indicator_data.filter (fun r => r.year == latestYear indicator_data))
      else if chart_type == "line" || chart_type == "scatter" ||
          chart_type == "area" || chart_type == "box" ||
          chart_type == "histogram" then
        .plain chart_type indicator_data
      else
        .plain "line" indicator_data

/-- The `ui-state-store` payload written by `fetch_and_display_data`. -/
structure UIState where
  source : String
  indicators : List String
  countries : List String
deriving DecidableEq, Repr

/-- The loop of `create_charts_and_export` (lines 575-612): one chart card
per requested indicator, but an indicator with no matching row in the
dataset is skipped (`continue`), not rendered as a placeholder.  Each kept
card binds `create_chart df indicator "line" countries`. -/
def create_charts_and_export (df : List IndicatorRecord)
    (indicators : List String) (countries : Option (List String)) :
    List (String × ChartSpec) :=
  (indicators.filter
    (fun ind => (df.map (fun r => r.indicator)).contains ind)).map
    (fun ind => (ind, create_chart df ind "line" countries))

/-- The `fetch-data-btn` branch of `fetch_and_display_data` (lines
548-572): with a truthy country and indicator selection, fetch, and on a
non-empty dataset return the chart cards, the view state (indicators :=
the requested list, countries := the requested list) and the dataset;
an empty dataset or selection produces no view state (`none`). -/
def fetch_and_display_api (api : Api) (selected_countries : List String)
    (selected_indicators : List String) (y0 y1 : Int) :
    Option (List (String × ChartSpec) × UIState × List IndicatorRecord) :=
  if selected_countries.isEmpty || selected_indicators.isEmpty then none
  else
    let df := fetch_country_data api (.inr selected_countries) y0 y1
      (some selected_indicators)
    if df.isEmpty then none
    else
      some (create_charts_and_export df selected_indicators
          (some selected_countries),
        { source := "api", indicators := selected_indicators,
          countries := selected_countries }, df)

/-- A cell of a data frame produced by `pd.read_csv`: a numeric value, a
non-numeric string, or a missing value (`NaN`, produced by an empty field
in the file). -/
inductive Cell where
  | numC (v : Rat)
  | strC (s : String)
  | blank
deriving DecidableEq, Repr

/-- The data frame read from an uploaded file: column names and rows of
cells aligned with them. -/
structure Table where
  cols : List String
  rows : List (List Cell)
deriving DecidableEq, Repr

/-- The five `required_cols` of `parse_uploaded_csv`. -/
def required_cols : List String :=
  ["country_code", "country_name", "indicator", "year", "value"]

/-- Whether one character list is a prefix of another. -/
def isPrefixL : List Char → List Char → Bool
  | [], _ => true
  | _ :: _, [] => false
  | a :: as, b :: bs => a == b && isPrefixL as bs

/-- Whether `sub` occurs contiguously inside the second list. -/
def hasSubList (sub : List Char) : List Char → Bool
  | [] => sub.isEmpty
  | b :: bs => isPrefixL sub (b :: bs) || hasSubList sub bs

/-- Python substring test `'csv' in filename`. -/
def containsCsv (filename : String) : Bool :=
  hasSubList "csv".data filename.data

/-- `pd.to_numeric(_, errors='coerce')` on one cell: numeric cells pass
through, anything else becomes `NaN`. -/
def toNumeric : Cell → Option Rat
  | .numC v => some v
  | .strC _ => none
  | .blank => none

/-- Whether a cell survives `dropna` (anything but `NaN`). -/
def notNA : Cell → Bool
  | .blank => false
  | _ => true

/-- Cell of a named column in one row (`blank` for a missing position). -/
def cellAt (cols : List String) (row : List Cell) (c : String) : Cell :=
  match cols.findIdx? (fun x => x == c) with
  | some i => row.getD i Cell.blank
  | none => Cell.blank

/-- One row of the frame produced by the import path after selecting the
five required columns, coercing `year` and `value` to numeric and running
`dropna`. -/
structure ParsedRow where
  country_code : Cell
  country_name : Cell
  indicator : Cell
  year : Rat
  value : Rat
deriving DecidableEq, Repr

/-- Lines 306-309 of `main.py` applied to one row: select the five
required cells, coerce `year` and `value` (`NaN` on failure), then
`dropna` removes the row when any of the five entries is `NaN`. -/
def parseRow (cols : List String) (row : List Cell) : Option ParsedRow :=
  match toNumeric (cellAt cols row "year"),
      toNumeric (cellAt cols row "value") with
  | some y, some v =>
    if notNA (cellAt cols row "country_code") &&
        notNA (cellAt cols row "country_name") &&
        notNA (cellAt cols row "indicator") then
      some { country_code := cellAt cols row "country_code"
             country_name := cellAt cols row "country_name"
             indicator := cellAt cols row "indicator"
             year := y, value := v }
    else none
  | _, _ => none

/-- `parse_uploaded_csv` from `main.py` (lines 294-316) on an already
decoded frame: reject a filename without `csv`, reject a frame missing a
required column, otherwise keep exactly the rows surviving coercion and
`dropna`, paired with the status message. -/
def parse_uploaded_csv (filename : String) (t : Table) :
    Option (List ParsedRow) × String :=
  if containsCsv filename then
    if required_cols.all (fun c => t.cols.contains c) then
      (some (t.rows.filterMap (parseRow t.cols)),
        "✅ CSV uploaded successfully!")
    else
      (none,
        "CSV must contain columns: country_code, country_name, indicator, year, value")
  else (none, "Please upload a CSV file")

/-- One field of the file written by `df.to_csv`: the three text columns
are written verbatim, `year` and `value` as decimal literals.  A decimal
literal re-parses to the same rational, so numeric fields are carried as
their value. -/
inductive CsvField where
  | text (s : String)
  | num (v : Rat)
deriving DecidableEq, Repr

/-- The default `na_values` sentinels of `pd.read_csv`: a field equal to
one of these tokens (including the empty field) is read back as a missing
value. -/
def naTokens : List String :=
  ["", "#N/A", "#N/A N/A", "#NA", "-1.#IND", "-1.#QNAN", "-NaN", "-nan",
   "1.#IND", "1.#QNAN", "<NA>", "N/A", "NA", "NULL", "NaN", "None",
   "n/a", "nan", "null"]

/-- The boolean tokens the reader recognizes when inferring a boolean
column. -/
def boolTokens : List String :=
  ["TRUE", "True", "true", "FALSE", "False", "false"]

/-- Leading and trailing whitespace, which the reader's numeric converter
skips. -/
def trimWs (cs : List Char) : List Char :=
  ((cs.dropWhile Char.isWhitespace).reverse.dropWhile
    Char.isWhitespace).reverse

/-- An optional leading sign: whether it is negative, and the rest. -/
def splitSign : List Char → Bool × List Char
  | '-' :: cs => (true, cs)
  | '+' :: cs => (false, cs)
  | cs => (false, cs)

/-- Split a character list at the first occurrence of `c`; `none` when
`c` does not occur. -/
def splitOnChar (c : Char) : List Char → Option (List Char × List Char)
  | [] => none
  | x :: xs =>
    if x == c then some ([], xs)
    else
      match splitOnChar c xs with
      | some (a, b) => some (x :: a, b)
      | none => none

/-- Accumulate a run of decimal digits into a natural number; `none` at
the first non-digit. -/
def digitsToNatAux (acc : Nat) : List Char → Option Nat
  | [] => some acc
  | c :: cs =>
    if c.isDigit then digitsToNatAux (acc * 10 + (c.toNat - 48)) cs
    else none

/-- A non-empty all-digit run as a natural number. -/
def digitsToNat : List Char → Option Nat
  | [] => none
  | cs => digitsToNatAux 0 cs

/-- The decimal mantissa `digits`, `digits.digits`, `.digits` or
`digits.`: the integer numerator and the length of the fractional
part. -/
def parseMantissa (cs : List Char) : Option (Nat × Nat) :=
  match splitOnChar '.' cs with
  | none => (digitsToNat cs).map (fun n => (n, 0))
  | some (a, b) =>
    if a.isEmpty then (digitsToNat b).map (fun n => (n, b.length))
    else if b.isEmpty then (digitsToNat a).map (fun n => (n, 0))
    else
      match digitsToNat a, digitsToNat b with
      | some x, some y => some (x * 10 ^ b.length + y, b.length)
      | _, _ => none

/-- The numeric literals the reader converts during type inference:
optional surrounding whitespace, an optional sign, a decimal mantissa
and an optional signed exponent. -/
def pyNumParse (s : String) : Option Rat :=
  let (neg, cs) := splitSign (trimWs s.data)
  let toRat : Nat × Nat → Rat := fun p => (p.1 : Rat) / (10 : Rat) ^ p.2
  let signed : Rat → Rat := fun v => if neg then -v else v
  let withExp : List Char × List Char → Option Rat := fun me =>
    match parseMantissa me.1 with
    | none => none
    | some p =>
      let (eneg, eds) := splitSign me.2
      (digitsToNat eds).map (fun e =>
        signed (if eneg then toRat p / (10 : Rat) ^ e
          else toRat p * (10 : Rat) ^ e))
  match splitOnChar 'e' cs with
  | some me => withExp me
  | none =>
    match splitOnChar 'E' cs with
    | some me => withExp me
    | none => (parseMantissa cs).map (fun p => signed (toRat p))

/-- Tokens the reader converts to an infinite float: an optional sign,
then `inf` or `infinity` in any letter case.  Infinite floats lie
outside the rational value model, so the round-trip hypotheses exclude
these tokens instead of representing them. -/
def isInfToken (s : String) : Bool :=
  let (_, cs) := splitSign (trimWs s.data)
  let low := cs.map Char.toLower
  low == "inf".data || low == "infinity".data

/-- Whether a written field is read back as a missing value. -/
def fieldIsNA : CsvField → Bool
  | .num _ => false
  | .text s => naTokens.contains s

/-- Whether a written field looks numeric to the reader's inference. -/
def fieldNumericLike : CsvField → Bool
  | .num _ => true
  | .text s => (pyNumParse s).isSome || isInfToken s

/-- Column type inference: a column is read as numeric when every one of
its fields is a missing value or numeric-like. -/
def colNumeric (col : List CsvField) : Bool :=
  col.all (fun f => fieldIsNA f || fieldNumericLike f)

/-- Read one written field back as a frame cell, given the inferred
column type.  Boolean and infinite-float columns are outside the cell
model (the round-trip hypotheses exclude their tokens), so such fields
fall back to text here. -/
def readField (numericCol : Bool) : CsvField → Cell
  | .num v => .numC v
  | .text s =>
    if naTokens.contains s then .blank
    else if numericCol then
      match pyNumParse s with
      | some v => .numC v
      | none => .strC s
    else .strC s

/-- The fields of column `j` across the written rows. -/
def columnFields (rows : List (List CsvField)) (j : Nat) :
    List CsvField :=
  rows.map (fun row => row.getD j (.text ""))

/-- The frame `pd.read_csv` reconstructs from a written file: per column,
infer the type from all of its fields, then read every field back. -/
def readBackTable (cols : List String) (rows : List (List CsvField)) :
    Table :=
  { cols := cols,
    rows := rows.map (fun row =>
      (List.range cols.length).map (fun j =>
        readField (colNumeric (columnFields rows j))
          (row.getD j (.text "")))) }

/-- The five fields `df.to_csv` writes for one record. -/
def recordToFields (r : IndicatorRecord) : List CsvField :=
  [.text r.country_code, .text r.country_name, .text r.indicator,
   .num (r.year : Rat), .num r.value]

/-- `export_to_csv` from `main.py` (lines 212-223), modelled up to the
written file's header and fields.  On an empty dataset the frame has no
columns, so the column selection
`df[['country_code', 'country_name', 'indicator', 'year', 'value']]`
raises `KeyError`, the `except` branch runs and the function returns
`None`; otherwise the written file holds exactly the five canonical
columns in dataset order. -/
def export_to_csv (ds : List IndicatorRecord) :
    Option (List String × List (List CsvField)) :=
  if ds.isEmpty then none
  else some (required_cols, ds.map recordToFields)

/-- A text field the written file hands back unchanged: not an NA
sentinel, not numeric-like, and not a boolean or infinity token. -/
def plainTextField (s : String) : Bool :=
  !naTokens.contains s && !boolTokens.contains s &&
    !(pyNumParse s).isSome && !isInfToken s

/-- The expected parsed image of one exported record. -/
def recordAsRow (r : IndicatorRecord) : ParsedRow :=
  { country_code := .strC r.country_code
    country_name := .strC r.country_name
    indicator := .strC r.indicator
    year := (r.year : Rat)
    value := r.value }

/-- The stored chart image metadata kept in `chart-images-store`. -/
structure ChartImage where
  indicator : String
  chart_type : String
  image_b64 : Option String
deriving DecidableEq, Repr

/-- The pieces of client state targeted by the outputs of
`clear_all_data`: the two dropdown values, the three data stores, the
chart image store, the rendered chart cards, the export section
visibility, the upload status text and the import button flag. -/
structure DashState where
  country_dropdown : List String
  indicator_dropdown : List String
  data_store : List IndicatorRecord
  imported_data_store : List IndicatorRecord
  ui_state_store : Option UIState
  chart_images_store : List ChartImage
  charts_container : List (String × ChartSpec)
  export_section_visible : Bool
  upload_status : String
  use_imported_btn_disabled : Bool
deriving DecidableEq, Repr

/-- The default indicator selection restored by the clear-all button. -/
def default_indicators : List String :=
  ["GDP (Current US$)", "GDP Growth (Annual %)"]

/-- `clear_all_data` from `main.py` (lines 767-786): with no click yet the
callback leaves the state unchanged (`dash.no_update`); otherwise all ten
outputs are reset in one transition, independently of the current
state. -/
def clear_all_data (n_clicks : Option Nat) (s : DashState) : DashState :=
  match n_clicks with
  | none => s
  | some _ =>
    { country_dropdown := []
      indicator_dropdown := default_indicators
      data_store := []
      imported_data_store := []
      ui_state_store := none
      chart_images_store := []
      charts_container := []
      export_section_visible := false
      upload_status := ""
      use_imported_btn_disabled := true }

/-! Theorems. -/

/-- C10: a country code passed as a bare string yields the same dataset
as the same code passed as a one-element list — the string is wrapped
into a singleton list before the per-pair request loop runs. -/
theorem fetch_single_string_wraps (api : Api) (c : String) (y0 y1 : Int)
    (inds : Option (List String)) :
    fetch_country_data api (.inl c) y0 y1 inds =
      fetch_country_data api (.inr [c]) y0 y1 inds := rfl

/-- C9: the clear-all transition is idempotent — running it twice gives
exactly the state of running it once — and one invocation resets the
dataset store, the imported-data buffer, the view state, the chart
selections and images, the displayed charts and the remaining outputs to
their initial empty values in one transition. -/
theorem clear_all_reset (s : DashState) (n m : Nat) :
    clear_all_data (some n) (clear_all_data (some m) s) =
        clear_all_data (some n) s ∧
    (clear_all_data (some n) s).data_store = [] ∧
    (clear_all_data (some n) s).imported_data_store = [] ∧
    (clear_all_data (some n) s).ui_state_store = none ∧
    (clear_all_data (some n) s).chart_images_store = [] ∧
    (clear_all_data (some n) s).charts_container = [] ∧
    (clear_all_data (some n) s).country_dropdown = [] ∧
    (clear_all_data (some n) s).indicator_dropdown = default_indicators ∧
    (clear_all_data (some n) s).export_section_visible = false ∧
    (clear_all_data (some n) s).upload_status = "" ∧
    (clear_all_data (some n) s).use_imported_btn_disabled = true :=
  ⟨rfl, rfl, rfl, rfl, rfl, rfl, rfl, rfl, rfl, rfl, rfl⟩

/-- C4: the cache-expiry comparison reads `timedelta.seconds`, which wraps
at one day, so it is smaller than 86400 for every elapsed time and the
cached mapping is returned even 25 hours (90000 seconds) after it was
stored — the cache never expires while the process lives. -/
theorem countries_cache_never_expires :
    (∀ e : Int, pySeconds e < 86400) ∧
    fetch_all_countries 90000
        (.ok [{ name := "Newland", id := "NEW", capitalCity := "Cap",
                longitude := "10", latitude := "20" }])
        { cache := some [("Oldland", "OLD")], timestamp := some 0 } =
      ([("Oldland", "OLD")],
        { cache := some [("Oldland", "OLD")], timestamp := some 0 }) := by
  constructor
  · intro e
    exact Int.emod_lt_of_pos e (by norm_num)
  · rfl

/-- A one-row frame carrying all five required columns. -/
def sampleTable : Table :=
  { cols := required_cols,
    rows := [[.strC "USA", .strC "United States", .strC "GDP (Current US$)",
      .numC 2020, .numC 5]] }

/-- C5 counterexample: a file whose name does not contain `csv` is
rejected wholesale even though all five required columns are present, so
a missing required column is not the only condition under which the whole
file is rejected by the import path. -/
theorem upload_reject_nonCsv_filename :
    (parse_uploaded_csv "data.txt" sampleTable).1 = none ∧
    required_cols.all (fun c => sampleTable.cols.contains c) = true := by
  constructor
  · rfl
  · rfl

/-- C5 amended: the import path rejects the whole upload exactly when the
filename lacks `csv` or a required column is missing; an accepted frame
keeps precisely the rows surviving per-row coercion and `dropna`, and a
row is dropped exactly when `year` or `value` fails numeric coercion or
one of the three text fields is missing. -/
theorem upload_validation_amended :
    (∀ (fn : String) (t : Table),
      (parse_uploaded_csv fn t).1 = none ↔
        (containsCsv fn = false ∨ ¬ ∀ c ∈ required_cols, c ∈ t.cols)) ∧
    (∀ (fn : String) (t : Table), containsCsv fn = true →
      (∀ c ∈ required_cols, c ∈ t.cols) →
      (parse_uploaded_csv fn t).1 =
        some (t.rows.filterMap (parseRow t.cols))) ∧
    (∀ (cols : List String) (row : List Cell),
      parseRow cols row = none ↔
        (toNumeric (cellAt cols row "year") = none ∨
         toNumeric (cellAt cols row "value") = none ∨
         notNA (cellAt cols row "country_code") = false ∨
         notNA (cellAt cols row "country_name") = false ∨
         notNA (cellAt cols row "indicator") = false)) := by
  refine ⟨?_, ?_, ?_⟩
  · intro fn t
    rcases hf : containsCsv fn
    · unfold parse_uploaded_csv
      rw [if_neg (by simp [hf])]
      exact iff_of_true rfl (Or.inl rfl)
    · by_cases hc : ∀ c ∈ required_cols, c ∈ t.cols
      · have hcb : required_cols.all (fun c => t.cols.contains c) = true := by
          simpa using hc
        unfold parse_uploaded_csv
        rw [if_pos hf, if_pos hcb]
        refine iff_of_false (by simp) ?_
        rintro (h | h)
        · exact absurd h (by decide)
        · exact h hc
      · have hnt : ¬ required_cols.all (fun c => t.cols.contains c) = true := by
          intro h
          exact hc (by simpa using h)
        unfold parse_uploaded_csv
        rw [if_pos hf, if_neg hnt]
        exact iff_of_true rfl (Or.inr hc)
  · intro fn t hf hc
    have hcb : required_cols.all (fun c => t.cols.contains c) = true := by
      simpa using hc
    unfold parse_uploaded_csv
    rw [if_pos hf, if_pos hcb]
  · intro cols row
    unfold parseRow
    rcases hy : toNumeric (cellAt cols row "year") with _ | y <;>
      rcases hv : toNumeric (cellAt cols row "value") with _ | v <;>
      simp [hy, hv]
    by_cases h1 : notNA (cellAt cols row "country_code") <;>
      by_cases h2 : notNA (cellAt cols row "country_name") <;>
      by_cases h3 : notNA (cellAt cols row "indicator") <;>
      simp [h1, h2, h3]

/-- C5 amended witness: an accepted upload of the sample frame produces
exactly its surviving rows. -/
theorem upload_validation_amended_witness :
    (parse_uploaded_csv "economic_data.csv" sampleTable).1 =
      some (sampleTable.rows.filterMap (parseRow sampleTable.cols)) :=
  upload_validation_amended.2.1 "economic_data.csv" sampleTable
    (by decide) (by decide)

/-- An oracle with data for exactly one (country, indicator) pair: the
GDP request for the United States; every other request succeeds with an
empty payload. -/
def onlyGdpUsaApi : Api := fun c code _ _ =>
  if c == "USA" && code == "NY.GDP.MKTP.CD" then
    .ok [{ countryName := "United States", date := 2020, value := some 3 }]
  else .ok []

/-- C2 counterexample: requesting the indicators `GDP (Current US$)` and
`Population` for the United States against a source with GDP data only
stores both indicators in the view state, yet the displayed chart list
contains only the GDP card — the zero-row indicator is omitted, with no
placeholder chart. -/
theorem charts_skip_empty_indicator :
    (fetch_and_display_api onlyGdpUsaApi ["USA"]
        ["GDP (Current US$)", "Population"] 2020 2021).map
        (fun res => (res.1.map Prod.fst, res.2.1.indicators)) =
      some (["GDP (Current US$)"], ["GDP (Current US$)", "Population"]) := by
  decide

/-- C2 amended: after an API fetch with a non-empty selection and a
non-empty resulting dataset, the view state's indicator list equals the
requested indicator list (not narrowed), while the displayed charts cover
exactly the requested indicators that have at least one matching row in
the dataset — a zero-row indicator is omitted rather than rendered as a
placeholder. -/
theorem view_state_keeps_requested_indicators :
    ∀ (api : Api) (cs inds : List String) (y0 y1 : Int)
      (charts : List (String × ChartSpec)) (ui : UIState)
      (df : List IndicatorRecord),
      fetch_and_display_api api cs inds y0 y1 = some (charts, ui, df) →
      ui.indicators = inds ∧
      charts.map Prod.fst =
        inds.filter (fun ind => (df.map (fun r => r.indicator)).contains ind) := by
  intro api cs inds y0 y1 charts ui df h
  simp only [fetch_and_display_api] at h
  split_ifs at h
  simp only [Option.some.injEq, Prod.mk.injEq] at h
  obtain ⟨hcharts, hui, hdf⟩ := h
  subst hdf
  constructor
  · rw [← hui]
  · rw [← hcharts]
    unfold create_charts_and_export
    rw [List.map_map]
    have hid : (Prod.fst ∘ fun ind =>
        (ind, create_chart (fetch_country_data api (.inr cs) y0 y1 (some inds))
          ind "line" (some cs))) = id := rfl
    rw [hid, List.map_id]

/-- C2 amended witness: the concrete one-pair fetch instantiates the
amended statement. -/
theorem view_state_keeps_requested_indicators_witness :
    ({ source := "api", indicators := ["GDP (Current US$)", "Population"],
        countries := ["USA"] } : UIState).indicators =
      ["GDP (Current US$)", "Population"] ∧
    ([("GDP (Current US$)",
        create_chart [⟨"USA", "United States", "GDP (Current US$)", 2020, 3⟩]
          "GDP (Current US$)" "line" (some ["USA"]))].map Prod.fst) =
      (["GDP (Current US$)", "Population"].filter
        (fun ind =>
          (([⟨"USA", "United States", "GDP (Current US$)", 2020, 3⟩] :
            List IndicatorRecord).map (fun r => r.indicator)).contains ind)) :=
  view_state_keeps_requested_indicators onlyGdpUsaApi ["USA"]
    ["GDP (Current US$)", "Population"] 2020 2021 _ _ _ (by decide)

/-- A dataset in which Germany has GDP values only in 2019 and 2021. -/
def deuOnlyData : List IndicatorRecord :=
  [⟨"DEU", "Germany", "GDP (Current US$)", 2019, 1⟩,
   ⟨"DEU", "Germany", "GDP (Current US$)", 2021, 2⟩]

/-- C3 counterexample: when no row of the filtered data carries year 2020,
the pivot has no 2020 column at all, so the heatmap for the
Germany-2019/2021 dataset contains no (Germany, 2020) cell — missing
cells are only filled within the observed country-by-year grid. -/
theorem heatmap_no_absent_year_column :
    create_chart deuOnlyData "GDP (Current US$)" "heatmap" none =
        .heatmapFig ["Germany"] [2019, 2021] [[1, 2]] ∧
    (2020 : Int) ∉
      (create_chart deuOnlyData "GDP (Current US$)" "heatmap" none).yearCols := by
  have h1 : heatRows (deuOnlyData.filter
      (fun r => r.indicator == "GDP (Current US$)")) = ["Germany"] := by decide
  have h2 : heatCols (deuOnlyData.filter
      (fun r => r.indicator == "GDP (Current US$)")) = [2019, 2021] := by decide
  have key : create_chart deuOnlyData "GDP (Current US$)" "heatmap" none =
      .heatmapFig ["Germany"] [2019, 2021] [[1, 2]] := by
    unfold create_chart
    norm_num [heatZ, h1, h2, heatCell]
    norm_num [deuOnlyData]
    intro h
    simp at h
  refine ⟨key, ?_⟩
  rw [key]
  decide

/-- The Germany dataset extended with a French observation in 2020, which
makes 2020 an observed year of the grid. -/
def deuFraData : List IndicatorRecord :=
  deuOnlyData ++ [⟨"FRA", "France", "GDP (Current US$)", 2020, 5⟩]

/-- C3 amended: the heatmap pivots the filtered rows into the grid of
observed country names by observed years; a grid cell with matching rows
carries their mean value and a grid cell with no matching row is filled
with 0.  The years of the grid are exactly the years observed in the
filtered data, so the (Germany, 2020) cell exists — with value 0 — only
when some row of the filtered data has year 2020, as in the extended
dataset with a French 2020 observation. -/
theorem heatmap_grid_amended :
    (∀ (d : List IndicatorRecord) (c : String) (y : Int),
      (d.filter (fun r => r.country_name == c && r.year == y)) = [] →
      heatCell d c y = 0) ∧
    (∀ (d : List IndicatorRecord) (y : Int),
      y ∈ heatCols d ↔ ∃ r ∈ d, r.year = y) ∧
    create_chart deuFraData "GDP (Current US$)" "heatmap" none =
      .heatmapFig ["France", "Germany"] [2019, 2020, 2021]
        [[0, 5, 0], [1, 0, 2]] := by
  refine ⟨?_, ?_, ?_⟩
  · intro d c y hfil
    unfold heatCell
    rw [hfil]
    rfl
  · intro d y
    unfold heatCols
    rw [List.mem_insertionSort]
    simp
  · have h1 : heatRows (deuFraData.filter
        (fun r => r.indicator == "GDP (Current US$)")) =
        ["France", "Germany"] := by decide
    have h2 : heatCols (deuFraData.filter
        (fun r => r.indicator == "GDP (Current US$)")) =
        [2019, 2020, 2021] := by decide
    unfold create_chart
    norm_num [heatZ, h1, h2, heatCell]
    norm_num [deuFraData, deuOnlyData]
    rw [if_neg (by decide)]
    norm_num
    refine ⟨⟨?_, ?_⟩, ?_⟩ <;> intro hne <;> exact absurd hne (by decide)

/-- C3 amended witness: the (Germany, 2020) cell of the extended dataset
is rendered and filled with 0. -/
theorem heatmap_grid_amended_witness :
    heatCell deuFraData "Germany" 2020 = 0 ∧
    ((2020 : Int) ∈ heatCols deuFraData ↔ ∃ r ∈ deuFraData, r.year = 2020) :=
  ⟨heatmap_grid_amended.1 deuFraData "Germany" 2020 (by decide),
   heatmap_grid_amended.2.1 deuFraData 2020⟩

/-- An oracle returning one valid GDP point for USA/2020 and a null GDP
value for CHN/2021. -/
def usaChnApi : Api := fun c code _ _ =>
  if c == "USA" && code == "NY.GDP.MKTP.CD" then
    .ok [{ countryName := "United States", date := 2020, value := some 3 }]
  else if c == "CHN" && code == "NY.GDP.MKTP.CD" then
    .ok [{ countryName := "China", date := 2021, value := none }]
  else .ok []

/-- C6: an observation with a null value yields no record, an observation
with a non-null value yields exactly the record built from it, and the
USA/CHN GDP fetch over 2020-2021 against the one-valid-one-null source
yields exactly the single USA record. -/
theorem null_values_dropped :
    (∀ (cc ind : String) (e : WBEntry), e.value = none →
      recordOfEntry cc ind e = none) ∧
    (∀ (cc ind : String) (e : WBEntry) (v : Rat), e.value = some v →
      recordOfEntry cc ind e =
        some ⟨cc, e.countryName, ind, e.date, v⟩) ∧
    fetch_country_data usaChnApi (.inr ["USA", "CHN"]) 2020 2021
        (some ["GDP (Current US$)"]) =
      [⟨"USA", "United States", "GDP (Current US$)", 2020, 3⟩] := by
  refine ⟨?_, ?_, by decide⟩
  · intro cc ind e h
    unfold recordOfEntry
    rw [h]
    rfl
  · intro cc ind e v h
    unfold recordOfEntry
    rw [h]
    rfl

/-- C6 witness: the null CHN/2021 observation produces no record. -/
theorem null_values_dropped_witness :
    recordOfEntry "CHN" "GDP (Current US$)"
      { countryName := "China", date := 2021, value := none } = none :=
  null_values_dropped.1 "CHN" "GDP (Current US$)"
    { countryName := "China", date := 2021, value := none } rfl

/-- Every record produced for a (country, indicator) pair carries that
country code and indicator label. -/
theorem fetchPair_fields (api : Api) (c i : String) (y0 y1 : Int) :
    ∀ r ∈ fetchPair api c i y0 y1, r.country_code = c ∧ r.indicator = i := by
  intro r hr
  unfold fetchPair at hr
  cases hl : lookupIndicator i with
  | none => simp [hl] at hr
  | some code =>
    rw [hl] at hr
    dsimp only at hr
    cases hres : api c code y0 y1 with
    | error e => simp [hres] at hr
    | ok es =>
      rw [hres] at hr
      dsimp only at hr
      obtain ⟨e, he, hrec⟩ := List.mem_filterMap.mp hr
      unfold recordOfEntry at hrec
      cases hv : e.value with
      | none => simp [hv] at hrec
      | some v =>
        rw [hv] at hrec
        simp only [Option.map_some', Option.some.injEq] at hrec
        rw [← hrec]
        exact ⟨rfl, rfl⟩

/-- An oracle equal to `api` except that the request for the pair
(country `c0`, indicator code `code0`) raises. -/
def blockPair (api : Api) (c0 code0 : String) : Api :=
  fun c code y0 y1 =>
    if c == c0 && code == code0 then .error () else api c code y0 y1

/-- Failing one request drops exactly that pair's records: the pair loop
body under the blocked oracle produces the unblocked rows minus the rows
of the blocked pair. -/
theorem fetchPair_blockPair (api : Api) (c0 code0 c i : String)
    (y0 y1 : Int) :
    fetchPair (blockPair api c0 code0) c i y0 y1 =
      (fetchPair api c i y0 y1).filter
        (fun r =>
          !(r.country_code == c0 &&
            lookupIndicator r.indicator == some code0)) := by
  unfold fetchPair
  cases hl : lookupIndicator i with
  | none => rfl
  | some code =>
    unfold blockPair
    dsimp only
    by_cases hb : (c == c0 && code == code0) = true
    · rw [if_pos hb]
      have hcc : c = c0 ∧ code = code0 := by simpa using hb
      symm
      rw [List.filter_eq_nil_iff]
      intro r hr
      have hr' : r ∈ fetchPair api c i y0 y1 := by
        unfold fetchPair
        rw [hl]
        exact hr
      obtain ⟨h1, h2⟩ := fetchPair_fields api c i y0 y1 r hr'
      obtain ⟨he1, he2⟩ := hcc
      subst he1
      subst he2
      rw [h1, h2, hl]
      simp
    · rw [if_neg hb]
      symm
      rw [List.filter_eq_self]
      intro r hr
      have hr' : r ∈ fetchPair api c i y0 y1 := by
        unfold fetchPair
        rw [hl]
        exact hr
      obtain ⟨h1, h2⟩ := fetchPair_fields api c i y0 y1 r hr'
      rw [h1, h2, hl, Bool.not_eq_true']
      have hrw : (some code == some code0) = (code == code0) := rfl
      rw [hrw]
      rcases hx : (c == c0 && code == code0) with _ | _
      · rfl
      · exact absurd hx hb

/-- C1: the fetch loop tolerates per-pair failures — when every requested
(country, indicator) pair's request raises, the result is the empty
dataset rather than an exception, and failing one single pair removes
exactly that pair's rows from the accumulator while every other pair's
rows survive. -/
theorem fetch_error_tolerance :
    (∀ (api : Api) (ccs inds : List String) (y0 y1 : Int),
      (∀ c ∈ ccs, ∀ i ∈ inds, ∀ code, lookupIndicator i = some code →
        api c code y0 y1 = .error ()) →
      fetch_country_data api (.inr ccs) y0 y1 (some inds) = []) ∧
    (∀ (api : Api) (c0 code0 : String) (ccs inds : List String)
      (y0 y1 : Int),
      rawData (blockPair api c0 code0) ccs inds y0 y1 =
        (rawData api ccs inds y0 y1).filter
          (fun r => !(r.country_code == c0 &&
            lookupIndicator r.indicator == some code0))) := by
  constructor
  · intro api ccs inds y0 y1 h
    have hraw : rawData api ccs inds y0 y1 = [] := by
      unfold rawData
      rw [List.flatMap_eq_nil_iff]
      intro c hc
      rw [List.flatMap_eq_nil_iff]
      intro i hi
      unfold fetchPair
      cases hl : lookupIndicator i with
      | none => rfl
      | some code =>
        dsimp only
        rw [h c hc i hi code hl]
    simp [fetch_country_data, resolveCountries, resolveIndicators, hraw]
  · intro api c0 code0 ccs inds y0 y1
    unfold rawData
    rw [List.filter_flatMap]
    congr 1
    funext c
    rw [List.filter_flatMap]
    congr 1
    funext i
    exact fetchPair_blockPair api c0 code0 c i y0 y1

/-- An oracle whose every request raises. -/
def deadApi : Api := fun _ _ _ _ => .error ()

/-- C1 witness: a fetch in which the only pair's request raises yields
the empty dataset. -/
theorem fetch_error_tolerance_witness :
    fetch_country_data deadApi (.inr ["USA"]) 2020 2021
        (some ["GDP (Current US$)"]) = [] :=
  fetch_error_tolerance.1 deadApi ["USA"] ["GDP (Current US$)"] 2020 2021
    (fun _ _ _ _ _ _ => rfl)

instance : IsTotal IndicatorRecord keyLE := by
  constructor
  intro a b
  unfold keyLE
  rcases lt_trichotomy a.country_name.data b.country_name.data with h | h | h
  · exact Or.inl (Or.inl h)
  · have hcn : a.country_name = b.country_name := String.ext h
    rcases lt_trichotomy a.indicator.data b.indicator.data with h2 | h2 | h2
    · exact Or.inl (Or.inr ⟨hcn, Or.inl h2⟩)
    · have hin : a.indicator = b.indicator := String.ext h2
      rcases le_total a.year b.year with h3 | h3
      · exact Or.inl (Or.inr ⟨hcn, Or.inr ⟨hin, h3⟩⟩)
      · exact Or.inr (Or.inr ⟨hcn.symm, Or.inr ⟨hin.symm, h3⟩⟩)
    · exact Or.inr (Or.inr ⟨hcn.symm, Or.inl h2⟩)
  · exact Or.inr (Or.inl h)

instance : IsTrans IndicatorRecord keyLE := by
  constructor
  intro a b c hab hbc
  unfold keyLE at hab hbc ⊢
  rcases hab with h1 | ⟨e1, h1⟩
  · rcases hbc with h2 | ⟨e2, h2⟩
    · exact Or.inl (h1.trans h2)
    · exact Or.inl (by rw [← e2]; exact h1)
  · rcases hbc with h2 | ⟨e2, h2⟩
    · exact Or.inl (by rw [e1]; exact h2)
    · refine Or.inr ⟨e1.trans e2, ?_⟩
      rcases h1 with h1 | ⟨f1, h1⟩
      · rcases h2 with h2 | ⟨f2, h2⟩
        · exact Or.inl (h1.trans h2)
        · exact Or.inl (by rw [← f2]; exact h1)
      · rcases h2 with h2 | ⟨f2, h2⟩
        · exact Or.inl (by rw [f1]; exact h2)
        · exact Or.inr ⟨f1.trans f2, h1.trans h2⟩

/-- Records with equal sort keys compare below one another. -/
theorem keyLE_of_recKey_eq {a b : IndicatorRecord} (h : recKey a = recKey b) :
    keyLE a b := by
  unfold recKey at h
  simp only [Prod.mk.injEq] at h
  obtain ⟨h1, h2, h3⟩ := h
  exact Or.inr ⟨h1, Or.inr ⟨h2, le_of_eq h3⟩⟩

/-- The sort of `fetch_country_data` is stable: the records of any fixed
sort key appear in the output exactly as they appear in the accumulator. -/
theorem sortRecords_filter_key (l : List IndicatorRecord)
    (k : String × String × Int) :
    (sortRecords l).filter (fun r => recKey r == k) =
      l.filter (fun r => recKey r == k) := by
  have hmem : ∀ r ∈ l.filter (fun r => recKey r == k), recKey r = k := by
    intro r hr
    have h2 := (List.mem_filter.mp hr).2
    simpa using h2
  have hpair : (l.filter (fun r => recKey r == k)).Pairwise keyLE := by
    apply List.pairwise_of_forall_mem_list
    intro a ha b hb
    exact keyLE_of_recKey_eq ((hmem a ha).trans (hmem b hb).symm)
  have hms : List.Sublist (l.filter (fun r => recKey r == k))
      (sortRecords l) := by
    unfold sortRecords
    exact List.sublist_insertionSort hpair (List.filter_sublist l)
  have hfil : (l.filter (fun r => recKey r == k)).filter
      (fun r => recKey r == k) = l.filter (fun r => recKey r == k) := by
    apply List.filter_eq_self.mpr
    intro a ha
    exact (List.mem_filter.mp ha).2
  have h2 : List.Sublist (l.filter (fun r => recKey r == k))
      ((sortRecords l).filter (fun r => recKey r == k)) := by
    have h3 := hms.filter (fun r => recKey r == k)
    rwa [hfil] at h3
  have hperm : List.Perm ((sortRecords l).filter (fun r => recKey r == k))
      (l.filter (fun r => recKey r == k)) := by
    unfold sortRecords
    exact (List.perm_insertionSort keyLE l).filter (fun r => recKey r == k)
  exact (h2.eq_of_length hperm.length_eq.symm).symm

/-- C7: a non-empty fetch result is sorted ascending by the key
(country_name, indicator, year), and the sort is stable — for every key,
the records of that key appear in the output in exactly their
accumulation order. -/
theorem fetch_output_sorted_stable :
    ∀ (api : Api) (ccs : List String) (y0 y1 : Int)
      (inds : Option (List String)),
      fetch_country_data api (.inr ccs) y0 y1 inds ≠ [] →
      (fetch_country_data api (.inr ccs) y0 y1 inds).Sorted keyLE ∧
      ∀ k : String × String × Int,
        (fetch_country_data api (.inr ccs) y0 y1 inds).filter
            (fun r => recKey r == k) =
          (rawData api ccs (resolveIndicators inds) y0 y1).filter
            (fun r => recKey r == k) := by
  intro api ccs y0 y1 inds _
  have hfe : fetch_country_data api (.inr ccs) y0 y1 inds =
      sortRecords (rawData api ccs (resolveIndicators inds) y0 y1) := by
    unfold fetch_country_data
    rcases hemp : (rawData api (resolveCountries (.inr ccs))
        (resolveIndicators inds) y0 y1).isEmpty with _ | _
    · simp [resolveCountries] at hemp ⊢
      simp [hemp]
    · simp [resolveCountries] at hemp ⊢
      simp [hemp, sortRecords]
  constructor
  · rw [hfe]
    exact List.sorted_insertionSort keyLE _
  · intro k
    rw [hfe]
    exact sortRecords_filter_key _ k

/-- An oracle returning two USA GDP observations in descending year
order, so that the output sort actually reorders them. -/
def c7Api : Api := fun c code _ _ =>
  if c == "USA" && code == "NY.GDP.MKTP.CD" then
    .ok [{ countryName := "United States", date := 2021, value := some 4 },
         { countryName := "United States", date := 2020, value := some 3 }]
  else .ok []

/-- C7 witness: the two-observation fetch is sorted and key-stable. -/
theorem fetch_output_sorted_stable_witness :
    (fetch_country_data c7Api (.inr ["USA"]) 2020 2021
        (some ["GDP (Current US$)"])).Sorted keyLE ∧
    (fetch_country_data c7Api (.inr ["USA"]) 2020 2021
        (some ["GDP (Current US$)"])).filter
        (fun r => recKey r == ("United States", "GDP (Current US$)", 2020)) =
      (rawData c7Api ["USA"] ["GDP (Current US$)"] 2020 2021).filter
        (fun r => recKey r == ("United States", "GDP (Current US$)", 2020)) := by
  have h := fetch_output_sorted_stable c7Api ["USA"] 2020 2021
    (some ["GDP (Current US$)"]) (by decide)
  exact ⟨h.1, h.2 ("United States", "GDP (Current US$)", 2020)⟩

/-- C8 counterexample: exporting the empty dataset produces no file at
all — the column selection on an empty frame raises, the handler returns
the failure marker — so re-importing "the resulting file" cannot yield
the (empty) dataset back. -/
theorem export_empty_dataset_fails :
    export_to_csv ([] : List IndicatorRecord) = none := rfl

/-- A text field satisfying the plain-text hypotheses reads back as the
same string cell, whatever column type was inferred. -/
theorem readField_text_of_plain {s : String}
    (h : plainTextField s = true) (b : Bool) :
    readField b (CsvField.text s) = Cell.strC s := by
  unfold plainTextField at h
  simp only [Bool.and_eq_true, Bool.not_eq_true'] at h
  obtain ⟨⟨⟨hna, _⟩, hnum⟩, _⟩ := h
  have hp : pyNumParse s = none := by
    rcases hq : pyNumParse s with _ | v
    · rfl
    · rw [hq] at hnum
      cases hnum
  unfold readField
  dsimp only
  rw [hna, hp]
  cases b <;> rfl

/-- A column headed by a plain-text field is not inferred numeric. -/
theorem colNumeric_text_false {s : String} {l : List CsvField}
    (h : plainTextField s = true) :
    colNumeric (CsvField.text s :: l) = false := by
  unfold plainTextField at h
  simp only [Bool.and_eq_true, Bool.not_eq_true'] at h
  obtain ⟨⟨⟨hna, _⟩, hnum⟩, hinf⟩ := h
  unfold colNumeric
  rw [List.all_cons]
  have hh : (fieldIsNA (CsvField.text s) ||
      fieldNumericLike (CsvField.text s)) = false := by
    unfold fieldIsNA fieldNumericLike
    dsimp only
    rw [hna, hnum, hinf]
    rfl
  rw [hh]
  rfl

/-- Reading back the written image of a non-empty dataset of plain-text
records gives exactly the five-cell rows of the records: the text columns
stay object-typed, NA sentinels do not occur, and the numeric columns
carry the written values. -/
theorem readBackTable_export (ds : List IndicatorRecord) (hne : ds ≠ [])
    (hfields : ∀ r ∈ ds, plainTextField r.country_code = true ∧
      plainTextField r.country_name = true ∧
      plainTextField r.indicator = true) :
    readBackTable required_cols (ds.map recordToFields) =
      { cols := required_cols,
        rows := ds.map (fun r =>
          [Cell.strC r.country_code, Cell.strC r.country_name,
           Cell.strC r.indicator, Cell.numC (r.year : Rat),
           Cell.numC r.value]) } := by
  obtain ⟨r0, rest, hds⟩ : ∃ a l, ds = a :: l := by
    rcases ds with _ | ⟨a, l⟩
    · exact absurd rfl hne
    · exact ⟨a, l, rfl⟩
  subst hds
  obtain ⟨hf0, hf1, hf2⟩ := hfields r0 (List.mem_cons_self r0 rest)
  have hcol0 : columnFields ((r0 :: rest).map recordToFields) 0 =
      (r0 :: rest).map (fun r => CsvField.text r.country_code) := by
    unfold columnFields
    rw [List.map_map]
    rfl
  have hcol1 : columnFields ((r0 :: rest).map recordToFields) 1 =
      (r0 :: rest).map (fun r => CsvField.text r.country_name) := by
    unfold columnFields
    rw [List.map_map]
    rfl
  have hcol2 : columnFields ((r0 :: rest).map recordToFields) 2 =
      (r0 :: rest).map (fun r => CsvField.text r.indicator) := by
    unfold columnFields
    rw [List.map_map]
    rfl
  have hc0 : colNumeric
      (columnFields ((r0 :: rest).map recordToFields) 0) = false := by
    rw [hcol0, List.map_cons]
    exact colNumeric_text_false hf0
  have hc1 : colNumeric
      (columnFields ((r0 :: rest).map recordToFields) 1) = false := by
    rw [hcol1, List.map_cons]
    exact colNumeric_text_false hf1
  have hc2 : colNumeric
      (columnFields ((r0 :: rest).map recordToFields) 2) = false := by
    rw [hcol2, List.map_cons]
    exact colNumeric_text_false hf2
  unfold readBackTable
  congr 1
  rw [List.map_map]
  apply List.map_congr_left
  intro r hr
  obtain ⟨h1, h2, h3⟩ := hfields r hr
  have hrange : List.range required_cols.length = [0, 1, 2, 3, 4] := rfl
  show (List.range required_cols.length).map (fun j =>
      readField (colNumeric (columnFields
        ((r0 :: rest).map recordToFields) j))
        ((recordToFields r).getD j (.text ""))) = _
  rw [hrange]
  simp only [List.map_cons, List.map_nil]
  rw [List.map_cons] at hc0 hc1 hc2
  rw [hc0, hc1, hc2]
  show [readField false (CsvField.text r.country_code),
    readField false (CsvField.text r.country_name),
    readField false (CsvField.text r.indicator),
    Cell.numC (r.year : Rat), Cell.numC r.value] = _
  rw [readField_text_of_plain h1 false, readField_text_of_plain h2 false,
    readField_text_of_plain h3 false]

/-- A read-back row of string and numeric cells parses to exactly its
`ParsedRow` image. -/
theorem parseRow_strCells (a b c : String) (y v : Rat) :
    parseRow required_cols
      [Cell.strC a, Cell.strC b, Cell.strC c, Cell.numC y, Cell.numC v] =
      some { country_code := Cell.strC a, country_name := Cell.strC b,
             indicator := Cell.strC c, year := y, value := v } := rfl

/-- The per-row import pipeline keeps every read-back row of a plain
dataset. -/
theorem filterMap_parseRow_strRows (ds : List IndicatorRecord) :
    (ds.map (fun r => [Cell.strC r.country_code, Cell.strC r.country_name,
      Cell.strC r.indicator, Cell.numC (r.year : Rat),
      Cell.numC r.value])).filterMap (parseRow required_cols) =
      ds.map recordAsRow := by
  induction ds with
  | nil => rfl
  | cons r rs ih =>
    simp only [List.map_cons, List.filterMap_cons, parseRow_strCells, ih]
    rfl

/-- C8 amended: for every non-empty dataset whose text fields are plain
for the csv reader — not an NA sentinel, not a numeric, boolean or
infinity token — exporting and re-importing the written file yields
exactly the same records (in order, hence as a multiset), and the parsed
image determines the record uniquely.  The empty dataset yields no file,
an NA-sentinel field would read back as missing and its row be dropped,
and an all-numeric text column would read back as numbers. -/
theorem csv_round_trip :
    (∀ (ds : List IndicatorRecord), ds ≠ [] →
      (∀ r ∈ ds, plainTextField r.country_code = true ∧
        plainTextField r.country_name = true ∧
        plainTextField r.indicator = true) →
      ∃ cols rows, export_to_csv ds = some (cols, rows) ∧
        (parse_uploaded_csv "economic_data.csv"
            (readBackTable cols rows)).1 = some (ds.map recordAsRow)) ∧
    (∀ r1 r2 : IndicatorRecord, recordAsRow r1 = recordAsRow r2 →
      r1 = r2) := by
  constructor
  · intro ds hne hfields
    refine ⟨required_cols, ds.map recordToFields, ?_, ?_⟩
    · unfold export_to_csv
      rw [if_neg (fun h => hne (List.isEmpty_iff.mp h))]
    · rw [readBackTable_export ds hne hfields]
      have hc1 : containsCsv "economic_data.csv" = true := by decide
      have hc2 : (required_cols.all fun c =>
          required_cols.contains c) = true := by decide
      unfold parse_uploaded_csv
      dsimp only
      rw [if_pos hc1, if_pos hc2]
      exact congrArg some (filterMap_parseRow_strRows ds)
  · intro r1 r2 h
    cases r1
    cases r2
    simp only [recordAsRow, ParsedRow.mk.injEq, Cell.strC.injEq,
      Int.cast_inj] at h
    obtain ⟨h1, h2, h3, h4, h5⟩ := h
    simp_all

/-- The record used to instantiate the round-trip statement. -/
def c8Record : IndicatorRecord :=
  ⟨"USA", "United States", "GDP (Current US$)", 2020, 3⟩

/-- C8 amended witness: the singleton dataset of `c8Record` exports to a
one-row file whose read-back re-import returns exactly the record's
parsed image. -/
theorem csv_round_trip_witness :
    (parse_uploaded_csv "economic_data.csv"
        (readBackTable required_cols [recordToFields c8Record])).1 =
      some [recordAsRow c8Record] := by
  obtain ⟨cols, rows, hexp, hp⟩ :=
    csv_round_trip.1 [c8Record] (by decide) (by decide)
  have hexp2 : export_to_csv [c8Record] =
      some (required_cols, [recordToFields c8Record]) := rfl
  rw [hexp] at hexp2
  have hpair := Option.some.inj hexp2
  have hcols : cols = required_cols := congrArg Prod.fst hpair
  have hrows : rows = [recordToFields c8Record] := congrArg Prod.snd hpair
  rw [hcols, hrows] at hp
  simpa using hp
